import Mathlib

/-!
Verification of the `B0Calc` interface (`src/nipype/interfaces/fsl/possum.py`).

The file under verification declares a command-line interface for the FSL
`b0calc` tool: an input specification (`B0CalcInputSpec`) whose traits carry
`argstr` templates, positions, defaults and a `name_template` for the derived
output file, an output specification (`B0CalcOutputSpec`), and the command
name `b0calc`.  The generic traits/command-line machinery (argument
rendering, mandatory/exists validation, filename derivation) lives in the
nipype framework, which is not part of the source tree given here; those
parts are modelled from the specification, anchored on the doctest embedded
in the source file (lines 80-85), which fixes the rendered command line for
a concrete input and is the authoritative in-tree evidence.
-/

/-- Digits of a natural number, most significant first; fuel-driven recursion. -/
def natDigitsAux : Nat → Nat → List Char
  | 0, _ => []
  | _+1, 0 => []
  | f+1, n => natDigitsAux f (n / 10) ++ [Char.ofNat (48 + n % 10)]

/-- Decimal string of a natural number. -/
def natToStr (n : Nat) : String :=
  if n = 0 then "0" else ⟨natDigitsAux 64 n⟩

/-- Round the fraction num/den (den > 0) to the nearest integer, ties to even;
this is the rounding used by Python percent-formatting of floats. -/
def roundHalfEvenFrac (num : Int) (den : Nat) : Int :=
  let f := num.fdiv den
  let r := num.fmod den
  if 2 * r < den then f
  else if (den : Int) < 2 * r then f + 1
  else if f % 2 = 0 then f else f + 1

/-- Left-pad a string with zeros up to the given length. -/
def padZeros (len : Nat) (s : String) : String :=
  ⟨List.replicate (len - s.length) '0' ++ s.data⟩

/-- Modelled from the spec: the fixed-point rendering `%0.<prec>f` that the
missing traits framework applies to a Float argument of an `argstr`. -/
def formatFixed (prec : Nat) (q : Rat) : String :=
  let n := roundHalfEvenFrac (q.num * (10 : Int) ^ prec) q.den
  let neg := n < 0
  let m := n.natAbs
  let ip := m / 10 ^ prec
  let fp := m % 10 ^ prec
  (if neg then "-" else "") ++ natToStr ip ++
    (if prec = 0 then "" else "." ++ padZeros prec (natToStr fp))

/-- Largest k such that d * 10^k ≤ n (fuel-driven). -/
def expUp : Nat → Nat → Nat → Nat
  | 0, _, _ => 0
  | f+1, n, d => if d * 10 ≤ n then expUp f n (d * 10) + 1 else 0

/-- Smallest k such that n * 10^k ≥ d (fuel-driven). -/
def expDown : Nat → Nat → Nat → Nat
  | 0, _, _ => 0
  | f+1, n, d => if d ≤ n then 0 else expDown f (n * 10) d + 1

/-- Mantissa (scaled by 10^6 and rounded) and decimal exponent of a nonzero
rational, for scientific notation. -/
def sciParts (q : Rat) : Int × Int :=
  let n := q.num.natAbs
  let d := q.den
  if d ≤ n then
    let e := expUp 4096 n d
    (roundHalfEvenFrac (n * 10 ^ 6) (d * 10 ^ e), e)
  else
    let e := expDown 4096 n d
    (roundHalfEvenFrac ((n * 10 ^ e) * 10 ^ 6) d, -(e : Int))

/-- Modelled from the spec: the scientific-notation rendering `%e` that the
missing traits framework applies to a Float argument of an `argstr`
(six mantissa digits, two-digit signed exponent, as in Python). -/
def formatSci (q : Rat) : String :=
  if q = 0 then "0.000000e+00"
  else
    let me := sciParts q
    let me := if me.1 = 10 ^ 7 then ((10 : Int) ^ 6, me.2 + 1) else me
    let digits := natToStr me.1.natAbs
    let mantStr : String := ⟨digits.data.take 1⟩ ++ "." ++ ⟨digits.data.drop 1⟩
    (if q < 0 then "-" else "") ++ mantStr ++ "e" ++
      (if me.2 < 0 then "-" else "+") ++ padZeros 2 (natToStr me.2.natAbs)

/-- Split a list of characters at its last dot: returns (stem, extension with
leading dot), or (all, empty) when no dot occurs. -/
def extSplit : List Char → List Char × List Char
  | [] => ([], [])
  | c :: rest =>
      match extSplit rest with
      | (s, []) => if c = '.' then ([], c :: rest) else (c :: s, [])
      | (s, e) => (c :: s, e)

/-- Whether `suffix` is a suffix of `s`. -/
def strEndsWith (suffix s : String) : Bool :=
  suffix.data.isSuffixOf s.data

/-- Drop the last `k` characters of a string. -/
def dropRightStr (k : Nat) (s : String) : String :=
  ⟨s.data.take (s.data.length - k)⟩

/-- Modelled from the spec: the filename-derivation utility splitting a path
into stem and extension, treating the compound compressed-volume extension
`.nii.gz` as a single extension family. -/
def split_filename (p : String) : String × String :=
  if strEndsWith ".nii.gz" p then (dropRightStr 7 p, ".nii.gz")
  else
    let se := extSplit p.data
    (⟨se.1⟩, ⟨se.2⟩)

/-- Conventional compressed-volume extension appended to derived output
filenames (the framework's default output type). -/
def fslOutputExt : String := ".nii.gz"

/-- InputParameters: one optional field per trait of `B0CalcInputSpec`
(`none` = the trait was never assigned by the caller, i.e. undefined).
Field names and their argstr/position/default metadata are taken from
`src/nipype/interfaces/fsl/possum.py`, lines 36-64. -/
structure B0CalcInputSpec where
  in_file : Option String
  out_file : Option String
  x_grad : Option Rat
  y_grad : Option Rat
  z_grad : Option Rat
  x_b0 : Option Rat
  y_b0 : Option Rat
  z_b0 : Option Rat
  delta : Option Rat
  chi_air : Option Rat
  compute_xyz : Option Bool
  extendboundary : Option Rat
  directconv : Option Bool
deriving DecidableEq

/-- Declared default of the `x_grad` trait (possum.py line 43). -/
def xGradDefault : Rat := mkRat 0 1

/-- Declared default of the `y_grad` trait (possum.py line 45). -/
def yGradDefault : Rat := mkRat 0 1

/-- Declared default of the `z_grad` trait (possum.py line 47). -/
def zGradDefault : Rat := mkRat 0 1

/-- Declared default of the `x_b0` trait (possum.py line 50). -/
def xB0Default : Rat := mkRat 0 1

/-- Declared default of the `y_b0` trait (possum.py line 52). -/
def yB0Default : Rat := mkRat 0 1

/-- Declared default of the `z_b0` trait (possum.py line 54). -/
def zB0Default : Rat := mkRat 1 1

/-- Declared default of the `delta` trait, -9.45e-6 (possum.py line 57). -/
def deltaDefault : Rat := mkRat (-945) 100000000

/-- Declared default of the `chi_air` trait, 4.0e-7 (possum.py line 58). -/
def chiAirDefault : Rat := mkRat 4 10000000

/-- Declared default of the `extendboundary` trait (possum.py line 61). -/
def extendboundaryDefault : Rat := mkRat 1 1

/-- Modelled from the spec: the output-path resolver of the missing
framework.  An explicitly supplied `out_file` is used verbatim; otherwise
the name is derived from `in_file` via the `name_template` `'%s_b0field'`
(possum.py lines 38-40), with the framework's conventional compressed-volume
output extension, as fixed by the doctest (possum.py line 85). -/
def resolveOutFile (p : B0CalcInputSpec) : Option String :=
  match p.out_file with
  | some o => some o
  | none =>
      match p.in_file with
      | some f => some ((split_filename f).1 ++ "_b0field" ++ fslOutputExt)
      | none => none

/-- Rendering of one optional numeric trait: its `argstr` with the formatted
value when assigned, nothing when undefined. -/
def optNum (flag : String) (fmt : Rat → String) (o : Option Rat) : List String :=
  match o with
  | some v => [flag ++ fmt v]
  | none => []

/-- Rendering of one optional boolean trait: the bare flag when assigned
`true`, nothing otherwise. -/
def optBool (flag : String) (o : Option Bool) : List String :=
  match o with
  | some true => [flag]
  | _ => []

/-- Rendering of the positional `in_file` argument (`argstr='-i %s'`). -/
def inFileArg (p : B0CalcInputSpec) : List String :=
  match p.in_file with
  | some f => ["-i " ++ f]
  | none => []

/-- Rendering of the positional `out_file` argument (`argstr='-o %s'`),
using the resolved output path. -/
def outFileArg (p : B0CalcInputSpec) : List String :=
  match resolveOutFile p with
  | some o => ["-o " ++ o]
  | none => []

/-- Modelled from the spec: the argument builder of the missing framework
applied to the trait metadata of `B0CalcInputSpec`.  Position 0 is
`in_file`, position 1 is `out_file`, and the remaining flags follow in the
fixed order of spec section 4.3.  A trait renders only when it was assigned
(undefined traits, including numeric ones left at their declared default,
render nothing), as fixed by the doctest (possum.py lines 80-85). -/
def buildArgs (p : B0CalcInputSpec) : List String :=
  inFileArg p ++
  outFileArg p ++
  optNum "--gx=" (formatFixed 4) p.x_grad ++
  optNum "--gy=" (formatFixed 4) p.y_grad ++
  optNum "--gz=" (formatFixed 4) p.z_grad ++
  optNum "--b0x=" (formatFixed 2) p.x_b0 ++
  optNum "--b0y=" (formatFixed 2) p.y_b0 ++
  optNum "--b0=" (formatFixed 2) p.z_b0 ++
  optNum "-d " formatSci p.delta ++
  optNum "--chi0=" formatSci p.chi_air ++
  optBool "--xyz" p.compute_xyz ++
  optNum "--extendboundary=" (formatFixed 2) p.extendboundary ++
  optBool "--directconv" p.directconv

/-- The command name of `B0Calc` (possum.py line 89). -/
def b0calcCmd : String := "b0calc"

/-- The full command line: command name followed by the rendered arguments,
joined by single spaces (as in the doctest, possum.py lines 84-85). -/
def cmdline (p : B0CalcInputSpec) : String :=
  String.intercalate " " (b0calcCmd :: buildArgs p)

/-- Error taxonomy of spec section 7. -/
inductive RunError where
  | missingRequiredParameter
  | pathNotFound
  | externalToolFailure
deriving DecidableEq

/-- One attempted invocation of the external command-execution collaborator. -/
structure Invocation where
  cmd : String
  args : List String
deriving DecidableEq

/-- OutputResult: the single output trait of `B0CalcOutputSpec`. -/
structure B0CalcOutputSpec where
  out_file : String
deriving DecidableEq

/-- Modelled from the spec: the validator of the missing framework.  The
filesystem is abstracted as the list of existing paths.  `in_file` is
`mandatory` and `exists=True` (possum.py line 36): unset fails with
`MissingRequiredParameter`, set-but-absent fails with `PathNotFound`;
no other field is validated. -/
def validate (fs : List String) (p : B0CalcInputSpec) : Option RunError :=
  match p.in_file with
  | none => some RunError.missingRequiredParameter
  | some f => if fs.contains f then none else some RunError.pathNotFound

/-- Modelled from the spec: the invocation driver of the missing framework
(spec section 4.4).  `fs` is the filesystem before the call, `exitOk`
whether the external process exits successfully, `fsAfter` the filesystem
after the call.  Returns the list of external invocations attempted
together with the outcome; validation failures attempt no invocation, and
a successful exit returns the pre-resolved output path with no
post-execution existence check. -/
def runB0Calc (fs : List String) (exitOk : Bool) (fsAfter : List String)
    (p : B0CalcInputSpec) : List Invocation × Except RunError B0CalcOutputSpec :=
  match validate fs p with
  | some e => ([], Except.error e)
  | none =>
      let inv : Invocation := ⟨b0calcCmd, buildArgs p⟩
      if exitOk then ([inv], Except.ok ⟨(resolveOutFile p).getD ""⟩)
      else ([inv], Except.error RunError.externalToolFailure)

/-- Whether `flag` is a leading substring of the token `t`. -/
def hasFlag (flag t : String) : Bool :=
  flag.data.isPrefixOf t.data

/-- Position rank of a token according to the fixed argument order of spec
section 4.3, determined by its flag. -/
def flagRank (t : String) : Nat :=
  if hasFlag "-i " t then 0
  else if hasFlag "-o " t then 1
  else if hasFlag "--gx=" t then 2
  else if hasFlag "--gy=" t then 3
  else if hasFlag "--gz=" t then 4
  else if hasFlag "--b0x=" t then 5
  else if hasFlag "--b0y=" t then 6
  else if hasFlag "--b0=" t then 7
  else if hasFlag "-d " t then 8
  else if hasFlag "--chi0=" t then 9
  else if t = "--xyz" then 10
  else if hasFlag "--extendboundary=" t then 11
  else if t = "--directconv" then 12
  else 13

/-- Definition following the words of claim C2: the input path's stem,
then `_b0field`, then the input path's own extension. -/
def claimedOutName (input : String) : String :=
  (split_filename input).1 ++ "_b0field" ++ (split_filename input).2

/-- The doctest input of possum.py lines 80-85: `in_file` set to
`tissue+air_map.nii`, `z_b0` set to 3.0, everything else left unset. -/
def doctestInputs : B0CalcInputSpec :=
  ⟨some "tissue+air_map.nii", none, none, none, none, none, none,
    some (mkRat 3 1), none, none, none, none, none⟩

/-- An input with only `in_file` assigned; every optional trait unset. -/
def onlyInFileInputs : B0CalcInputSpec :=
  ⟨some "tissue+air_map.nii", none, none, none, none, none, none,
    none, none, none, none, none, none⟩

/-- An input with every numeric trait explicitly assigned its declared
default value. -/
def allDefaultsInputs : B0CalcInputSpec :=
  ⟨some "seg.nii", none, some xGradDefault, some yGradDefault,
    some zGradDefault, some xB0Default, some yB0Default, some zB0Default,
    some deltaDefault, some chiAirDefault, none, some extendboundaryDefault,
    none⟩

/-- Strict ordering of tokens by their rank in the fixed argument order. -/
def rankLt (a b : String) : Prop := flagRank a < flagRank b

/-- An input with no field assigned at all. -/
def emptyInputs : B0CalcInputSpec :=
  ⟨none, none, none, none, none, none, none, none, none, none, none, none,
    none⟩

/-- An input with an explicit `out_file` and several other fields assigned. -/
def explicitOutInputs : B0CalcInputSpec :=
  ⟨some "seg.nii", some "custom_out.nii.gz", some (mkRat 3 2), none, none,
    none, none, some (mkRat 3 1), none, none, some true, none, none⟩

/-- A second input sharing only the explicit `out_file` with
`explicitOutInputs`, all other fields different. -/
def explicitOutInputsB : B0CalcInputSpec :=
  ⟨some "other.nii.gz", some "custom_out.nii.gz", none, some (mkRat 1 4),
    none, some (mkRat 1 2), none, none, some (mkRat 1 100000), none, none,
    some (mkRat 2 1), some true⟩

theorem hasFlag_append_self (flag s : String) : hasFlag flag (flag ++ s) = true := by
  simp [hasFlag, String.data_append, List.isPrefixOf_iff_prefix, List.prefix_append]

theorem hasFlag_refl (flag : String) : hasFlag flag flag = true := by
  simp [hasFlag, List.isPrefixOf_iff_prefix]

theorem hasFlag_ne (F b : String) (h₁ : F.data.isPrefixOf b.data = false)
    (h₂ : b.data.isPrefixOf F.data = false) (s : String) :
    hasFlag F (b ++ s) = false := by
  simp only [hasFlag, String.data_append]
  by_contra hc
  rw [Bool.not_eq_false, List.isPrefixOf_iff_prefix] at hc
  rcases List.prefix_or_prefix_of_prefix hc ( List.prefix_append b.data s.data) with hp | hp
  · rw [← List.isPrefixOf_iff_prefix] at hp
    simp [hp] at h₁
  · rw [← List.isPrefixOf_iff_prefix] at hp
    simp [hp] at h₂

theorem append_ne (b t : String) (h : hasFlag b t = false) (s : String) :
    ¬ (b ++ s = t) := by
  intro he
  have hs : hasFlag b (b ++ s) = true := hasFlag_append_self b s
  rw [he, h] at hs
  exact Bool.false_ne_true hs

theorem filter_optNum_ne (F flag : String) (fmt : Rat → String) (o : Option Rat)
    (h : ∀ s, hasFlag F (flag ++ s) = false) :
    (optNum flag fmt o).filter (hasFlag F) = [] := by
  cases o <;> simp [optNum, h]

theorem filter_optNum_self (flag : String) (fmt : Rat → String) (o : Option Rat) :
    (optNum flag fmt o).filter (hasFlag flag) = optNum flag fmt o := by
  cases o <;> simp [optNum, hasFlag_append_self]

theorem filter_optBool_ne (F flag : String) (o : Option Bool)
    (h : hasFlag F flag = false) :
    (optBool flag o).filter (hasFlag F) = [] := by
  rcases o with _ | b
  · simp [optBool]
  · cases b <;> simp [optBool, h]

theorem filter_optBool_self (flag : String) (o : Option Bool) :
    (optBool flag o).filter (hasFlag flag) = optBool flag o := by
  rcases o with _ | b
  · simp [optBool]
  · cases b <;> simp [optBool, hasFlag_refl]

theorem filter_inFileArg (F : String) (p : B0CalcInputSpec)
    (h : ∀ s, hasFlag F ("-i " ++ s) = false) :
    (inFileArg p).filter (hasFlag F) = [] := by
  cases hp : p.in_file <;> simp [inFileArg, hp, h]

theorem filter_outFileArg (F : String) (p : B0CalcInputSpec)
    (h : ∀ s, hasFlag F ("-o " ++ s) = false) :
    (outFileArg p).filter (hasFlag F) = [] := by
  cases hp : resolveOutFile p <;> simp [outFileArg, hp, h]

/-- The tokens of the built argument list carrying the `--gx=` flag are
exactly the rendering of its own trait. -/
theorem filter_gx (p : B0CalcInputSpec) :
    (buildArgs p).filter (hasFlag "--gx=") = optNum "--gx=" (formatFixed 4) p.x_grad := by
  unfold buildArgs
  simp only [List.filter_append]
  rw [filter_inFileArg "--gx=" p (hasFlag_ne "--gx=" "-i " (by decide) (by decide)),
      filter_outFileArg "--gx=" p (hasFlag_ne "--gx=" "-o " (by decide) (by decide)),
      filter_optNum_self "--gx=" (formatFixed 4) p.x_grad,
      filter_optNum_ne "--gx=" "--gy=" (formatFixed 4) p.y_grad (hasFlag_ne "--gx=" "--gy=" (by decide) (by decide)),
      filter_optNum_ne "--gx=" "--gz=" (formatFixed 4) p.z_grad (hasFlag_ne "--gx=" "--gz=" (by decide) (by decide)),
      filter_optNum_ne "--gx=" "--b0x=" (formatFixed 2) p.x_b0 (hasFlag_ne "--gx=" "--b0x=" (by decide) (by decide)),
      filter_optNum_ne "--gx=" "--b0y=" (formatFixed 2) p.y_b0 (hasFlag_ne "--gx=" "--b0y=" (by decide) (by decide)),
      filter_optNum_ne "--gx=" "--b0=" (formatFixed 2) p.z_b0 (hasFlag_ne "--gx=" "--b0=" (by decide) (by decide)),
      filter_optNum_ne "--gx=" "-d " formatSci p.delta (hasFlag_ne "--gx=" "-d " (by decide) (by decide)),
      filter_optNum_ne "--gx=" "--chi0=" formatSci p.chi_air (hasFlag_ne "--gx=" "--chi0=" (by decide) (by decide)),
      filter_optBool_ne "--gx=" "--xyz" p.compute_xyz (by decide),
      filter_optNum_ne "--gx=" "--extendboundary=" (formatFixed 2) p.extendboundary (hasFlag_ne "--gx=" "--extendboundary=" (by decide) (by decide)),
      filter_optBool_ne "--gx=" "--directconv" p.directconv (by decide)]
  simp

/-- The tokens of the built argument list carrying the `--gy=` flag are
exactly the rendering of its own trait. -/
theorem filter_gy (p : B0CalcInputSpec) :
    (buildArgs p).filter (hasFlag "--gy=") = optNum "--gy=" (formatFixed 4) p.y_grad := by
  unfold buildArgs
  simp only [List.filter_append]
  rw [filter_inFileArg "--gy=" p (hasFlag_ne "--gy=" "-i " (by decide) (by decide)),
      filter_outFileArg "--gy=" p (hasFlag_ne "--gy=" "-o " (by decide) (by decide)),
      filter_optNum_ne "--gy=" "--gx=" (formatFixed 4) p.x_grad (hasFlag_ne "--gy=" "--gx=" (by decide) (by decide)),
      filter_optNum_self "--gy=" (formatFixed 4) p.y_grad,
      filter_optNum_ne "--gy=" "--gz=" (formatFixed 4) p.z_grad (hasFlag_ne "--gy=" "--gz=" (by decide) (by decide)),
      filter_optNum_ne "--gy=" "--b0x=" (formatFixed 2) p.x_b0 (hasFlag_ne "--gy=" "--b0x=" (by decide) (by decide)),
      filter_optNum_ne "--gy=" "--b0y=" (formatFixed 2) p.y_b0 (hasFlag_ne "--gy=" "--b0y=" (by decide) (by decide)),
      filter_optNum_ne "--gy=" "--b0=" (formatFixed 2) p.z_b0 (hasFlag_ne "--gy=" "--b0=" (by decide) (by decide)),
      filter_optNum_ne "--gy=" "-d " formatSci p.delta (hasFlag_ne "--gy=" "-d " (by decide) (by decide)),
      filter_optNum_ne "--gy=" "--chi0=" formatSci p.chi_air (hasFlag_ne "--gy=" "--chi0=" (by decide) (by decide)),
      filter_optBool_ne "--gy=" "--xyz" p.compute_xyz (by decide),
      filter_optNum_ne "--gy=" "--extendboundary=" (formatFixed 2) p.extendboundary (hasFlag_ne "--gy=" "--extendboundary=" (by decide) (by decide)),
      filter_optBool_ne "--gy=" "--directconv" p.directconv (by decide)]
  simp

/-- The tokens of the built argument list carrying the `--gz=` flag are
exactly the rendering of its own trait. -/
theorem filter_gz (p : B0CalcInputSpec) :
    (buildArgs p).filter (hasFlag "--gz=") = optNum "--gz=" (formatFixed 4) p.z_grad := by
  unfold buildArgs
  simp only [List.filter_append]
  rw [filter_inFileArg "--gz=" p (hasFlag_ne "--gz=" "-i " (by decide) (by decide)),
      filter_outFileArg "--gz=" p (hasFlag_ne "--gz=" "-o " (by decide) (by decide)),
      filter_optNum_ne "--gz=" "--gx=" (formatFixed 4) p.x_grad (hasFlag_ne "--gz=" "--gx=" (by decide) (by decide)),
      filter_optNum_ne "--gz=" "--gy=" (formatFixed 4) p.y_grad (hasFlag_ne "--gz=" "--gy=" (by decide) (by decide)),
      filter_optNum_self "--gz=" (formatFixed 4) p.z_grad,
      filter_optNum_ne "--gz=" "--b0x=" (formatFixed 2) p.x_b0 (hasFlag_ne "--gz=" "--b0x=" (by decide) (by decide)),
      filter_optNum_ne "--gz=" "--b0y=" (formatFixed 2) p.y_b0 (hasFlag_ne "--gz=" "--b0y=" (by decide) (by decide)),
      filter_optNum_ne "--gz=" "--b0=" (formatFixed 2) p.z_b0 (hasFlag_ne "--gz=" "--b0=" (by decide) (by decide)),
      filter_optNum_ne "--gz=" "-d " formatSci p.delta (hasFlag_ne "--gz=" "-d " (by decide) (by decide)),
      filter_optNum_ne "--gz=" "--chi0=" formatSci p.chi_air (hasFlag_ne "--gz=" "--chi0=" (by decide) (by decide)),
      filter_optBool_ne "--gz=" "--xyz" p.compute_xyz (by decide),
      filter_optNum_ne "--gz=" "--extendboundary=" (formatFixed 2) p.extendboundary (hasFlag_ne "--gz=" "--extendboundary=" (by decide) (by decide)),
      filter_optBool_ne "--gz=" "--directconv" p.directconv (by decide)]
  simp

/-- The tokens of the built argument list carrying the `--b0x=` flag are
exactly the rendering of its own trait. -/
theorem filter_b0x (p : B0CalcInputSpec) :
    (buildArgs p).filter (hasFlag "--b0x=") = optNum "--b0x=" (formatFixed 2) p.x_b0 := by
  unfold buildArgs
  simp only [List.filter_append]
  rw [filter_inFileArg "--b0x=" p (hasFlag_ne "--b0x=" "-i " (by decide) (by decide)),
      filter_outFileArg "--b0x=" p (hasFlag_ne "--b0x=" "-o " (by decide) (by decide)),
      filter_optNum_ne "--b0x=" "--gx=" (formatFixed 4) p.x_grad (hasFlag_ne "--b0x=" "--gx=" (by decide) (by decide)),
      filter_optNum_ne "--b0x=" "--gy=" (formatFixed 4) p.y_grad (hasFlag_ne "--b0x=" "--gy=" (by decide) (by decide)),
      filter_optNum_ne "--b0x=" "--gz=" (formatFixed 4) p.z_grad (hasFlag_ne "--b0x=" "--gz=" (by decide) (by decide)),
      filter_optNum_self "--b0x=" (formatFixed 2) p.x_b0,
      filter_optNum_ne "--b0x=" "--b0y=" (formatFixed 2) p.y_b0 (hasFlag_ne "--b0x=" "--b0y=" (by decide) (by decide)),
      filter_optNum_ne "--b0x=" "--b0=" (formatFixed 2) p.z_b0 (hasFlag_ne "--b0x=" "--b0=" (by decide) (by decide)),
      filter_optNum_ne "--b0x=" "-d " formatSci p.delta (hasFlag_ne "--b0x=" "-d " (by decide) (by decide)),
      filter_optNum_ne "--b0x=" "--chi0=" formatSci p.chi_air (hasFlag_ne "--b0x=" "--chi0=" (by decide) (by decide)),
      filter_optBool_ne "--b0x=" "--xyz" p.compute_xyz (by decide),
      filter_optNum_ne "--b0x=" "--extendboundary=" (formatFixed 2) p.extendboundary (hasFlag_ne "--b0x=" "--extendboundary=" (by decide) (by decide)),
      filter_optBool_ne "--b0x=" "--directconv" p.directconv (by decide)]
  simp

/-- The tokens of the built argument list carrying the `--b0y=` flag are
exactly the rendering of its own trait. -/
theorem filter_b0y (p : B0CalcInputSpec) :
    (buildArgs p).filter (hasFlag "--b0y=") = optNum "--b0y=" (formatFixed 2) p.y_b0 := by
  unfold buildArgs
  simp only [List.filter_append]
  rw [filter_inFileArg "--b0y=" p (hasFlag_ne "--b0y=" "-i " (by decide) (by decide)),
      filter_outFileArg "--b0y=" p (hasFlag_ne "--b0y=" "-o " (by decide) (by decide)),
      filter_optNum_ne "--b0y=" "--gx=" (formatFixed 4) p.x_grad (hasFlag_ne "--b0y=" "--gx=" (by decide) (by decide)),
      filter_optNum_ne "--b0y=" "--gy=" (formatFixed 4) p.y_grad (hasFlag_ne "--b0y=" "--gy=" (by decide) (by decide)),
      filter_optNum_ne "--b0y=" "--gz=" (formatFixed 4) p.z_grad (hasFlag_ne "--b0y=" "--gz=" (by decide) (by decide)),
      filter_optNum_ne "--b0y=" "--b0x=" (formatFixed 2) p.x_b0 (hasFlag_ne "--b0y=" "--b0x=" (by decide) (by decide)),
      filter_optNum_self "--b0y=" (formatFixed 2) p.y_b0,
      filter_optNum_ne "--b0y=" "--b0=" (formatFixed 2) p.z_b0 (hasFlag_ne "--b0y=" "--b0=" (by decide) (by decide)),
      filter_optNum_ne "--b0y=" "-d " formatSci p.delta (hasFlag_ne "--b0y=" "-d " (by decide) (by decide)),
      filter_optNum_ne "--b0y=" "--chi0=" formatSci p.chi_air (hasFlag_ne "--b0y=" "--chi0=" (by decide) (by decide)),
      filter_optBool_ne "--b0y=" "--xyz" p.compute_xyz (by decide),
      filter_optNum_ne "--b0y=" "--extendboundary=" (formatFixed 2) p.extendboundary (hasFlag_ne "--b0y=" "--extendboundary=" (by decide) (by decide)),
      filter_optBool_ne "--b0y=" "--directconv" p.directconv (by decide)]
  simp

/-- The tokens of the built argument list carrying the `--b0=` flag are
exactly the rendering of its own trait. -/
theorem filter_b0z (p : B0CalcInputSpec) :
    (buildArgs p).filter (hasFlag "--b0=") = optNum "--b0=" (formatFixed 2) p.z_b0 := by
  unfold buildArgs
  simp only [List.filter_append]
  rw [filter_inFileArg "--b0=" p (hasFlag_ne "--b0=" "-i " (by decide) (by decide)),
      filter_outFileArg "--b0=" p (hasFlag_ne "--b0=" "-o " (by decide) (by decide)),
      filter_optNum_ne "--b0=" "--gx=" (formatFixed 4) p.x_grad (hasFlag_ne "--b0=" "--gx=" (by decide) (by decide)),
      filter_optNum_ne "--b0=" "--gy=" (formatFixed 4) p.y_grad (hasFlag_ne "--b0=" "--gy=" (by decide) (by decide)),
      filter_optNum_ne "--b0=" "--gz=" (formatFixed 4) p.z_grad (hasFlag_ne "--b0=" "--gz=" (by decide) (by decide)),
      filter_optNum_ne "--b0=" "--b0x=" (formatFixed 2) p.x_b0 (hasFlag_ne "--b0=" "--b0x=" (by decide) (by decide)),
      filter_optNum_ne "--b0=" "--b0y=" (formatFixed 2) p.y_b0 (hasFlag_ne "--b0=" "--b0y=" (by decide) (by decide)),
      filter_optNum_self "--b0=" (formatFixed 2) p.z_b0,
      filter_optNum_ne "--b0=" "-d " formatSci p.delta (hasFlag_ne "--b0=" "-d " (by decide) (by decide)),
      filter_optNum_ne "--b0=" "--chi0=" formatSci p.chi_air (hasFlag_ne "--b0=" "--chi0=" (by decide) (by decide)),
      filter_optBool_ne "--b0=" "--xyz" p.compute_xyz (by decide),
      filter_optNum_ne "--b0=" "--extendboundary=" (formatFixed 2) p.extendboundary (hasFlag_ne "--b0=" "--extendboundary=" (by decide) (by decide)),
      filter_optBool_ne "--b0=" "--directconv" p.directconv (by decide)]
  simp

/-- The tokens of the built argument list carrying the `-d ` flag are
exactly the rendering of its own trait. -/
theorem filter_delta (p : B0CalcInputSpec) :
    (buildArgs p).filter (hasFlag "-d ") = optNum "-d " formatSci p.delta := by
  unfold buildArgs
  simp only [List.filter_append]
  rw [filter_inFileArg "-d " p (hasFlag_ne "-d " "-i " (by decide) (by decide)),
      filter_outFileArg "-d " p (hasFlag_ne "-d " "-o " (by decide) (by decide)),
      filter_optNum_ne "-d " "--gx=" (formatFixed 4) p.x_grad (hasFlag_ne "-d " "--gx=" (by decide) (by decide)),
      filter_optNum_ne "-d " "--gy=" (formatFixed 4) p.y_grad (hasFlag_ne "-d " "--gy=" (by decide) (by decide)),
      filter_optNum_ne "-d " "--gz=" (formatFixed 4) p.z_grad (hasFlag_ne "-d " "--gz=" (by decide) (by decide)),
      filter_optNum_ne "-d " "--b0x=" (formatFixed 2) p.x_b0 (hasFlag_ne "-d " "--b0x=" (by decide) (by decide)),
      filter_optNum_ne "-d " "--b0y=" (formatFixed 2) p.y_b0 (hasFlag_ne "-d " "--b0y=" (by decide) (by decide)),
      filter_optNum_ne "-d " "--b0=" (formatFixed 2) p.z_b0 (hasFlag_ne "-d " "--b0=" (by decide) (by decide)),
      filter_optNum_self "-d " formatSci p.delta,
      filter_optNum_ne "-d " "--chi0=" formatSci p.chi_air (hasFlag_ne "-d " "--chi0=" (by decide) (by decide)),
      filter_optBool_ne "-d " "--xyz" p.compute_xyz (by decide),
      filter_optNum_ne "-d " "--extendboundary=" (formatFixed 2) p.extendboundary (hasFlag_ne "-d " "--extendboundary=" (by decide) (by decide)),
      filter_optBool_ne "-d " "--directconv" p.directconv (by decide)]
  simp

/-- The tokens of the built argument list carrying the `--chi0=` flag are
exactly the rendering of its own trait. -/
theorem filter_chi0 (p : B0CalcInputSpec) :
    (buildArgs p).filter (hasFlag "--chi0=") = optNum "--chi0=" formatSci p.chi_air := by
  unfold buildArgs
  simp only [List.filter_append]
  rw [filter_inFileArg "--chi0=" p (hasFlag_ne "--chi0=" "-i " (by decide) (by decide)),
      filter_outFileArg "--chi0=" p (hasFlag_ne "--chi0=" "-o " (by decide) (by decide)),
      filter_optNum_ne "--chi0=" "--gx=" (formatFixed 4) p.x_grad (hasFlag_ne "--chi0=" "--gx=" (by decide) (by decide)),
      filter_optNum_ne "--chi0=" "--gy=" (formatFixed 4) p.y_grad (hasFlag_ne "--chi0=" "--gy=" (by decide) (by decide)),
      filter_optNum_ne "--chi0=" "--gz=" (formatFixed 4) p.z_grad (hasFlag_ne "--chi0=" "--gz=" (by decide) (by decide)),
      filter_optNum_ne "--chi0=" "--b0x=" (formatFixed 2) p.x_b0 (hasFlag_ne "--chi0=" "--b0x=" (by decide) (by decide)),
      filter_optNum_ne "--chi0=" "--b0y=" (formatFixed 2) p.y_b0 (hasFlag_ne "--chi0=" "--b0y=" (by decide) (by decide)),
      filter_optNum_ne "--chi0=" "--b0=" (formatFixed 2) p.z_b0 (hasFlag_ne "--chi0=" "--b0=" (by decide) (by decide)),
      filter_optNum_ne "--chi0=" "-d " formatSci p.delta (hasFlag_ne "--chi0=" "-d " (by decide) (by decide)),
      filter_optNum_self "--chi0=" formatSci p.chi_air,
      filter_optBool_ne "--chi0=" "--xyz" p.compute_xyz (by decide),
      filter_optNum_ne "--chi0=" "--extendboundary=" (formatFixed 2) p.extendboundary (hasFlag_ne "--chi0=" "--extendboundary=" (by decide) (by decide)),
      filter_optBool_ne "--chi0=" "--directconv" p.directconv (by decide)]
  simp

/-- The tokens of the built argument list carrying the `--xyz` flag are
exactly the rendering of its own trait. -/
theorem filter_xyz (p : B0CalcInputSpec) :
    (buildArgs p).filter (hasFlag "--xyz") = optBool "--xyz" p.compute_xyz := by
  unfold buildArgs
  simp only [List.filter_append]
  rw [filter_inFileArg "--xyz" p (hasFlag_ne "--xyz" "-i " (by decide) (by decide)),
      filter_outFileArg "--xyz" p (hasFlag_ne "--xyz" "-o " (by decide) (by decide)),
      filter_optNum_ne "--xyz" "--gx=" (formatFixed 4) p.x_grad (hasFlag_ne "--xyz" "--gx=" (by decide) (by decide)),
      filter_optNum_ne "--xyz" "--gy=" (formatFixed 4) p.y_grad (hasFlag_ne "--xyz" "--gy=" (by decide) (by decide)),
      filter_optNum_ne "--xyz" "--gz=" (formatFixed 4) p.z_grad (hasFlag_ne "--xyz" "--gz=" (by decide) (by decide)),
      filter_optNum_ne "--xyz" "--b0x=" (formatFixed 2) p.x_b0 (hasFlag_ne "--xyz" "--b0x=" (by decide) (by decide)),
      filter_optNum_ne "--xyz" "--b0y=" (formatFixed 2) p.y_b0 (hasFlag_ne "--xyz" "--b0y=" (by decide) (by decide)),
      filter_optNum_ne "--xyz" "--b0=" (formatFixed 2) p.z_b0 (hasFlag_ne "--xyz" "--b0=" (by decide) (by decide)),
      filter_optNum_ne "--xyz" "-d " formatSci p.delta (hasFlag_ne "--xyz" "-d " (by decide) (by decide)),
      filter_optNum_ne "--xyz" "--chi0=" formatSci p.chi_air (hasFlag_ne "--xyz" "--chi0=" (by decide) (by decide)),
      filter_optBool_self "--xyz" p.compute_xyz,
      filter_optNum_ne "--xyz" "--extendboundary=" (formatFixed 2) p.extendboundary (hasFlag_ne "--xyz" "--extendboundary=" (by decide) (by decide)),
      filter_optBool_ne "--xyz" "--directconv" p.directconv (by decide)]
  simp

/-- The tokens of the built argument list carrying the `--extendboundary=` flag are
exactly the rendering of its own trait. -/
theorem filter_eb (p : B0CalcInputSpec) :
    (buildArgs p).filter (hasFlag "--extendboundary=") = optNum "--extendboundary=" (formatFixed 2) p.extendboundary := by
  unfold buildArgs
  simp only [List.filter_append]
  rw [filter_inFileArg "--extendboundary=" p (hasFlag_ne "--extendboundary=" "-i " (by decide) (by decide)),
      filter_outFileArg "--extendboundary=" p (hasFlag_ne "--extendboundary=" "-o " (by decide) (by decide)),
      filter_optNum_ne "--extendboundary=" "--gx=" (formatFixed 4) p.x_grad (hasFlag_ne "--extendboundary=" "--gx=" (by decide) (by decide)),
      filter_optNum_ne "--extendboundary=" "--gy=" (formatFixed 4) p.y_grad (hasFlag_ne "--extendboundary=" "--gy=" (by decide) (by decide)),
      filter_optNum_ne "--extendboundary=" "--gz=" (formatFixed 4) p.z_grad (hasFlag_ne "--extendboundary=" "--gz=" (by decide) (by decide)),
      filter_optNum_ne "--extendboundary=" "--b0x=" (formatFixed 2) p.x_b0 (hasFlag_ne "--extendboundary=" "--b0x=" (by decide) (by decide)),
      filter_optNum_ne "--extendboundary=" "--b0y=" (formatFixed 2) p.y_b0 (hasFlag_ne "--extendboundary=" "--b0y=" (by decide) (by decide)),
      filter_optNum_ne "--extendboundary=" "--b0=" (formatFixed 2) p.z_b0 (hasFlag_ne "--extendboundary=" "--b0=" (by decide) (by decide)),
      filter_optNum_ne "--extendboundary=" "-d " formatSci p.delta (hasFlag_ne "--extendboundary=" "-d " (by decide) (by decide)),
      filter_optNum_ne "--extendboundary=" "--chi0=" formatSci p.chi_air (hasFlag_ne "--extendboundary=" "--chi0=" (by decide) (by decide)),
      filter_optBool_ne "--extendboundary=" "--xyz" p.compute_xyz (by decide),
      filter_optNum_self "--extendboundary=" (formatFixed 2) p.extendboundary,
      filter_optBool_ne "--extendboundary=" "--directconv" p.directconv (by decide)]
  simp

/-- The tokens of the built argument list carrying the `--directconv` flag are
exactly the rendering of its own trait. -/
theorem filter_dc (p : B0CalcInputSpec) :
    (buildArgs p).filter (hasFlag "--directconv") = optBool "--directconv" p.directconv := by
  unfold buildArgs
  simp only [List.filter_append]
  rw [filter_inFileArg "--directconv" p (hasFlag_ne "--directconv" "-i " (by decide) (by decide)),
      filter_outFileArg "--directconv" p (hasFlag_ne "--directconv" "-o " (by decide) (by decide)),
      filter_optNum_ne "--directconv" "--gx=" (formatFixed 4) p.x_grad (hasFlag_ne "--directconv" "--gx=" (by decide) (by decide)),
      filter_optNum_ne "--directconv" "--gy=" (formatFixed 4) p.y_grad (hasFlag_ne "--directconv" "--gy=" (by decide) (by decide)),
      filter_optNum_ne "--directconv" "--gz=" (formatFixed 4) p.z_grad (hasFlag_ne "--directconv" "--gz=" (by decide) (by decide)),
      filter_optNum_ne "--directconv" "--b0x=" (formatFixed 2) p.x_b0 (hasFlag_ne "--directconv" "--b0x=" (by decide) (by decide)),
      filter_optNum_ne "--directconv" "--b0y=" (formatFixed 2) p.y_b0 (hasFlag_ne "--directconv" "--b0y=" (by decide) (by decide)),
      filter_optNum_ne "--directconv" "--b0=" (formatFixed 2) p.z_b0 (hasFlag_ne "--directconv" "--b0=" (by decide) (by decide)),
      filter_optNum_ne "--directconv" "-d " formatSci p.delta (hasFlag_ne "--directconv" "-d " (by decide) (by decide)),
      filter_optNum_ne "--directconv" "--chi0=" formatSci p.chi_air (hasFlag_ne "--directconv" "--chi0=" (by decide) (by decide)),
      filter_optBool_ne "--directconv" "--xyz" p.compute_xyz (by decide),
      filter_optNum_ne "--directconv" "--extendboundary=" (formatFixed 2) p.extendboundary (hasFlag_ne "--directconv" "--extendboundary=" (by decide) (by decide)),
      filter_optBool_self "--directconv" p.directconv]
  simp
/-- Rank of a token carrying the `-i ` flag. -/
theorem rank_in (s : String) : flagRank ("-i " ++ s) = 0 := by
  simp [flagRank,
    hasFlag_append_self]

/-- Rank of a token carrying the `-o ` flag. -/
theorem rank_out (s : String) : flagRank ("-o " ++ s) = 1 := by
  simp [flagRank,
    hasFlag_append_self,
    hasFlag_ne "-i " "-o " (by decide) (by decide)]

/-- Rank of a token carrying the `--gx=` flag. -/
theorem rank_gx (s : String) : flagRank ("--gx=" ++ s) = 2 := by
  simp [flagRank,
    hasFlag_append_self,
    hasFlag_ne "-i " "--gx=" (by decide) (by decide),
    hasFlag_ne "-o " "--gx=" (by decide) (by decide)]

/-- Rank of a token carrying the `--gy=` flag. -/
theorem rank_gy (s : String) : flagRank ("--gy=" ++ s) = 3 := by
  simp [flagRank,
    hasFlag_append_self,
    hasFlag_ne "-i " "--gy=" (by decide) (by decide),
    hasFlag_ne "-o " "--gy=" (by decide) (by decide),
    hasFlag_ne "--gx=" "--gy=" (by decide) (by decide)]

/-- Rank of a token carrying the `--gz=` flag. -/
theorem rank_gz (s : String) : flagRank ("--gz=" ++ s) = 4 := by
  simp [flagRank,
    hasFlag_append_self,
    hasFlag_ne "-i " "--gz=" (by decide) (by decide),
    hasFlag_ne "-o " "--gz=" (by decide) (by decide),
    hasFlag_ne "--gx=" "--gz=" (by decide) (by decide),
    hasFlag_ne "--gy=" "--gz=" (by decide) (by decide)]

/-- Rank of a token carrying the `--b0x=` flag. -/
theorem rank_b0x (s : String) : flagRank ("--b0x=" ++ s) = 5 := by
  simp [flagRank,
    hasFlag_append_self,
    hasFlag_ne "-i " "--b0x=" (by decide) (by decide),
    hasFlag_ne "-o " "--b0x=" (by decide) (by decide),
    hasFlag_ne "--gx=" "--b0x=" (by decide) (by decide),
    hasFlag_ne "--gy=" "--b0x=" (by decide) (by decide),
    hasFlag_ne "--gz=" "--b0x=" (by decide) (by decide)]

/-- Rank of a token carrying the `--b0y=` flag. -/
theorem rank_b0y (s : String) : flagRank ("--b0y=" ++ s) = 6 := by
  simp [flagRank,
    hasFlag_append_self,
    hasFlag_ne "-i " "--b0y=" (by decide) (by decide),
    hasFlag_ne "-o " "--b0y=" (by decide) (by decide),
    hasFlag_ne "--gx=" "--b0y=" (by decide) (by decide),
    hasFlag_ne "--gy=" "--b0y=" (by decide) (by decide),
    hasFlag_ne "--gz=" "--b0y=" (by decide) (by decide),
    hasFlag_ne "--b0x=" "--b0y=" (by decide) (by decide)]

/-- Rank of a token carrying the `--b0=` flag. -/
theorem rank_b0z (s : String) : flagRank ("--b0=" ++ s) = 7 := by
  simp [flagRank,
    hasFlag_append_self,
    hasFlag_ne "-i " "--b0=" (by decide) (by decide),
    hasFlag_ne "-o " "--b0=" (by decide) (by decide),
    hasFlag_ne "--gx=" "--b0=" (by decide) (by decide),
    hasFlag_ne "--gy=" "--b0=" (by decide) (by decide),
    hasFlag_ne "--gz=" "--b0=" (by decide) (by decide),
    hasFlag_ne "--b0x=" "--b0=" (by decide) (by decide),
    hasFlag_ne "--b0y=" "--b0=" (by decide) (by decide)]

/-- Rank of a token carrying the `-d ` flag. -/
theorem rank_delta (s : String) : flagRank ("-d " ++ s) = 8 := by
  simp [flagRank,
    hasFlag_append_self,
    hasFlag_ne "-i " "-d " (by decide) (by decide),
    hasFlag_ne "-o " "-d " (by decide) (by decide),
    hasFlag_ne "--gx=" "-d " (by decide) (by decide),
    hasFlag_ne "--gy=" "-d " (by decide) (by decide),
    hasFlag_ne "--gz=" "-d " (by decide) (by decide),
    hasFlag_ne "--b0x=" "-d " (by decide) (by decide),
    hasFlag_ne "--b0y=" "-d " (by decide) (by decide),
    hasFlag_ne "--b0=" "-d " (by decide) (by decide)]

/-- Rank of a token carrying the `--chi0=` flag. -/
theorem rank_chi0 (s : String) : flagRank ("--chi0=" ++ s) = 9 := by
  simp [flagRank,
    hasFlag_append_self,
    hasFlag_ne "-i " "--chi0=" (by decide) (by decide),
    hasFlag_ne "-o " "--chi0=" (by decide) (by decide),
    hasFlag_ne "--gx=" "--chi0=" (by decide) (by decide),
    hasFlag_ne "--gy=" "--chi0=" (by decide) (by decide),
    hasFlag_ne "--gz=" "--chi0=" (by decide) (by decide),
    hasFlag_ne "--b0x=" "--chi0=" (by decide) (by decide),
    hasFlag_ne "--b0y=" "--chi0=" (by decide) (by decide),
    hasFlag_ne "--b0=" "--chi0=" (by decide) (by decide),
    hasFlag_ne "-d " "--chi0=" (by decide) (by decide)]

/-- Rank of the bare `--xyz` token. -/
theorem rank_xyz : flagRank "--xyz" = 10 := by decide

/-- Rank of a token carrying the `--extendboundary=` flag. -/
theorem rank_eb (s : String) : flagRank ("--extendboundary=" ++ s) = 11 := by
  simp [flagRank,
    hasFlag_append_self,
    hasFlag_ne "-i " "--extendboundary=" (by decide) (by decide),
    hasFlag_ne "-o " "--extendboundary=" (by decide) (by decide),
    hasFlag_ne "--gx=" "--extendboundary=" (by decide) (by decide),
    hasFlag_ne "--gy=" "--extendboundary=" (by decide) (by decide),
    hasFlag_ne "--gz=" "--extendboundary=" (by decide) (by decide),
    hasFlag_ne "--b0x=" "--extendboundary=" (by decide) (by decide),
    hasFlag_ne "--b0y=" "--extendboundary=" (by decide) (by decide),
    hasFlag_ne "--b0=" "--extendboundary=" (by decide) (by decide),
    hasFlag_ne "-d " "--extendboundary=" (by decide) (by decide),
    hasFlag_ne "--chi0=" "--extendboundary=" (by decide) (by decide),
    append_ne "--extendboundary=" "--xyz" (by decide)]

/-- Rank of the bare `--directconv` token. -/
theorem rank_dc : flagRank "--directconv" = 12 := by decide

theorem pairwise_optNum (flag : String) (fmt : Rat → String) (o : Option Rat) :
    (optNum flag fmt o).Pairwise rankLt := by
  cases o <;> simp [optNum]

theorem pairwise_optBool (flag : String) (o : Option Bool) :
    (optBool flag o).Pairwise rankLt := by
  rcases o with _ | b
  · simp [optBool]
  · cases b <;> simp [optBool]

theorem pairwise_inFileArg (p : B0CalcInputSpec) :
    (inFileArg p).Pairwise rankLt := by
  cases hp : p.in_file <;> simp [inFileArg, hp]

theorem pairwise_outFileArg (p : B0CalcInputSpec) :
    (outFileArg p).Pairwise rankLt := by
  cases hp : resolveOutFile p <;> simp [outFileArg, hp]

theorem rank_mem_optNum (flag : String) (fmt : Rat → String) (o : Option Rat)
    (k : Nat) (h : ∀ s, flagRank (flag ++ s) = k) :
    ∀ t ∈ optNum flag fmt o, flagRank t = k := by
  cases o with
  | none => simp [optNum]
  | some v =>
      intro t ht
      simp only [optNum, List.mem_singleton] at ht
      rw [ht]
      exact h (fmt v)

theorem rank_mem_optBool (flag : String) (o : Option Bool) (k : Nat)
    (h : flagRank flag = k) :
    ∀ t ∈ optBool flag o, flagRank t = k := by
  rcases o with _ | b
  · simp [optBool]
  · cases b with
    | false => simp [optBool]
    | true =>
        intro t ht
        simp only [optBool, List.mem_singleton] at ht
        rw [ht]
        exact h

theorem rank_mem_inFileArg (p : B0CalcInputSpec) :
    ∀ t ∈ inFileArg p, flagRank t = 0 := by
  cases hp : p.in_file with
  | none => simp [inFileArg, hp]
  | some f =>
      intro t ht
      simp only [inFileArg, hp, List.mem_singleton] at ht
      rw [ht]
      exact rank_in f

theorem rank_mem_outFileArg (p : B0CalcInputSpec) :
    ∀ t ∈ outFileArg p, flagRank t = 1 := by
  cases hp : resolveOutFile p with
  | none => simp [outFileArg, hp]
  | some o =>
      intro t ht
      simp only [outFileArg, hp, List.mem_singleton] at ht
      rw [ht]
      exact rank_out o

theorem pairwise_chain (l₁ l₂ : List String) (k₁ k₂ : Nat) (hk : k₁ < k₂)
    (h₀ : l₁.Pairwise rankLt) (h₁ : ∀ t ∈ l₁, flagRank t = k₁)
    (h₂ : l₂.Pairwise rankLt) (hb : ∀ t ∈ l₂, k₂ ≤ flagRank t) :
    (l₁ ++ l₂).Pairwise rankLt ∧ ∀ t ∈ l₁ ++ l₂, k₁ ≤ flagRank t := by
  constructor
  · rw [List.pairwise_append]
    refine ⟨h₀, h₂, fun a ha b hbm => ?_⟩
    show flagRank a < flagRank b
    rw [h₁ a ha]
    exact lt_of_lt_of_le hk (hb b hbm)
  · intro t ht
    rcases List.mem_append.mp ht with h | h
    · exact le_of_eq (h₁ t h).symm
    · exact le_trans (Nat.le_of_lt hk) (hb t h)

theorem buildArgs_pairwise (p : B0CalcInputSpec) :
    (buildArgs p).Pairwise rankLt := by
  have s12 : (optBool "--directconv" p.directconv).Pairwise rankLt ∧
      ∀ t ∈ optBool "--directconv" p.directconv, 12 ≤ flagRank t :=
    ⟨pairwise_optBool _ _, fun t ht =>
      le_of_eq (rank_mem_optBool "--directconv" p.directconv 12 rank_dc t ht).symm⟩
  have s11 := pairwise_chain (optNum "--extendboundary=" (formatFixed 2) p.extendboundary)
      _ 11 12 (by omega) (pairwise_optNum _ _ _)
      (rank_mem_optNum "--extendboundary=" (formatFixed 2) p.extendboundary 11 rank_eb)
      s12.1 s12.2
  have s10 := pairwise_chain (optBool "--xyz" p.compute_xyz) _ 10 11 (by omega)
      (pairwise_optBool _ _) (rank_mem_optBool "--xyz" p.compute_xyz 10 rank_xyz)
      s11.1 s11.2
  have s9 := pairwise_chain (optNum "--chi0=" formatSci p.chi_air) _ 9 10 (by omega)
      (pairwise_optNum _ _ _) (rank_mem_optNum "--chi0=" formatSci p.chi_air 9 rank_chi0)
      s10.1 s10.2
  have s8 := pairwise_chain (optNum "-d " formatSci p.delta) _ 8 9 (by omega)
      (pairwise_optNum _ _ _) (rank_mem_optNum "-d " formatSci p.delta 8 rank_delta)
      s9.1 s9.2
  have s7 := pairwise_chain (optNum "--b0=" (formatFixed 2) p.z_b0) _ 7 8 (by omega)
      (pairwise_optNum _ _ _) (rank_mem_optNum "--b0=" (formatFixed 2) p.z_b0 7 rank_b0z)
      s8.1 s8.2
  have s6 := pairwise_chain (optNum "--b0y=" (formatFixed 2) p.y_b0) _ 6 7 (by omega)
      (pairwise_optNum _ _ _) (rank_mem_optNum "--b0y=" (formatFixed 2) p.y_b0 6 rank_b0y)
      s7.1 s7.2
  have s5 := pairwise_chain (optNum "--b0x=" (formatFixed 2) p.x_b0) _ 5 6 (by omega)
      (pairwise_optNum _ _ _) (rank_mem_optNum "--b0x=" (formatFixed 2) p.x_b0 5 rank_b0x)
      s6.1 s6.2
  have s4 := pairwise_chain (optNum "--gz=" (formatFixed 4) p.z_grad) _ 4 5 (by omega)
      (pairwise_optNum _ _ _) (rank_mem_optNum "--gz=" (formatFixed 4) p.z_grad 4 rank_gz)
      s5.1 s5.2
  have s3 := pairwise_chain (optNum "--gy=" (formatFixed 4) p.y_grad) _ 3 4 (by omega)
      (pairwise_optNum _ _ _) (rank_mem_optNum "--gy=" (formatFixed 4) p.y_grad 3 rank_gy)
      s4.1 s4.2
  have s2 := pairwise_chain (optNum "--gx=" (formatFixed 4) p.x_grad) _ 2 3 (by omega)
      (pairwise_optNum _ _ _) (rank_mem_optNum "--gx=" (formatFixed 4) p.x_grad 2 rank_gx)
      s3.1 s3.2
  have s1 := pairwise_chain (outFileArg p) _ 1 2 (by omega)
      (pairwise_outFileArg p) (rank_mem_outFileArg p) s2.1 s2.2
  have s0 := pairwise_chain (inFileArg p) _ 0 1 (by omega)
      (pairwise_inFileArg p) (rank_mem_inFileArg p) s1.1 s1.2
  have hassoc : buildArgs p = inFileArg p ++ (outFileArg p ++
      (optNum "--gx=" (formatFixed 4) p.x_grad ++ (optNum "--gy=" (formatFixed 4) p.y_grad ++
      (optNum "--gz=" (formatFixed 4) p.z_grad ++ (optNum "--b0x=" (formatFixed 2) p.x_b0 ++
      (optNum "--b0y=" (formatFixed 2) p.y_b0 ++ (optNum "--b0=" (formatFixed 2) p.z_b0 ++
      (optNum "-d " formatSci p.delta ++ (optNum "--chi0=" formatSci p.chi_air ++
      (optBool "--xyz" p.compute_xyz ++ (optNum "--extendboundary=" (formatFixed 2) p.extendboundary ++
      optBool "--directconv" p.directconv))))))))))) := by
    simp [buildArgs, List.append_assoc]
  rw [hassoc]
  exact s0.1

theorem mem_of_filter_eq_singleton {l : List String} {q : String → Bool}
    {t : String} (h : l.filter q = [t]) : t ∈ l := by
  have ht : t ∈ l.filter q := by
    rw [h]
    exact List.mem_singleton_self t
  exact List.mem_of_mem_filter ht

/-- C1 (amended): a numeric field contributes a token exactly when the
caller explicitly assigned it, and that token is the field's flag followed
by the fixed per-field formatting of the assigned value (gradients 4
decimal places, b0 components 2, delta and chi_air scientific notation,
extend_boundary 2); numeric fields left unset, which merely carry their
declared default, contribute no token (e.g. gradient_x assigned 1.5 yields
the token '--gx=1.5000'). -/
theorem numeric_tokens_iff_assigned (p : B0CalcInputSpec) :
    ((buildArgs p).filter (hasFlag "--gx=") = optNum "--gx=" (formatFixed 4) p.x_grad) ∧
    ((buildArgs p).filter (hasFlag "--gy=") = optNum "--gy=" (formatFixed 4) p.y_grad) ∧
    ((buildArgs p).filter (hasFlag "--gz=") = optNum "--gz=" (formatFixed 4) p.z_grad) ∧
    ((buildArgs p).filter (hasFlag "--b0x=") = optNum "--b0x=" (formatFixed 2) p.x_b0) ∧
    ((buildArgs p).filter (hasFlag "--b0y=") = optNum "--b0y=" (formatFixed 2) p.y_b0) ∧
    ((buildArgs p).filter (hasFlag "--b0=") = optNum "--b0=" (formatFixed 2) p.z_b0) ∧
    ((buildArgs p).filter (hasFlag "-d ") = optNum "-d " formatSci p.delta) ∧
    ((buildArgs p).filter (hasFlag "--chi0=") = optNum "--chi0=" formatSci p.chi_air) ∧
    ((buildArgs p).filter (hasFlag "--extendboundary=") =
      optNum "--extendboundary=" (formatFixed 2) p.extendboundary) ∧
    optNum "--gx=" (formatFixed 4) (some (mkRat 3 2)) = ["--gx=1.5000"] :=
  ⟨filter_gx p, filter_gy p, filter_gz p, filter_b0x p, filter_b0y p,
    filter_b0z p, filter_delta p, filter_chi0 p, filter_eb p, by decide⟩

/-- C1 counterexample: with every numeric field left unset (carrying only
its declared default) the built argument list holds no numeric token at
all, refuting the claim that numeric fields always contribute a token. -/
theorem numeric_token_unset_counterexample :
    buildArgs onlyInFileInputs =
      ["-i tissue+air_map.nii", "-o tissue+air_map_b0field.nii.gz"] ∧
    "--gx=0.0000" ∉ buildArgs onlyInFileInputs ∧
    "--b0=1.00" ∉ buildArgs onlyInFileInputs := by
  decide

/-- C2 (amended): with `out_file` unset and `in_file` an existing file, the
resolved output path is the input's stem followed by `_b0field` followed by
the conventional compressed-volume extension `.nii.gz` (not the input's own
extension), as a pure function of the input path. -/
theorem derived_output_name (fs : List String) (p : B0CalcInputSpec)
    (f : String) (h₀ : p.out_file = none) (h₁ : p.in_file = some f)
    (h₂ : fs.contains f = true) :
    resolveOutFile p = some ((split_filename f).1 ++ "_b0field" ++ fslOutputExt) := by
  simp [resolveOutFile, h₀, h₁]

/-- C2 witness: the amended derivation at the doctest input. -/
theorem derived_output_name_witness :
    resolveOutFile onlyInFileInputs = some "tissue+air_map_b0field.nii.gz" :=
  (derived_output_name ["tissue+air_map.nii"] onlyInFileInputs
    "tissue+air_map.nii" rfl rfl (by decide)).trans (by decide)

/-- C2 counterexample: for the input `tissue+air_map.nii` the code derives
`tissue+air_map_b0field.nii.gz`, not the claim's
`<stem(input)>_b0field<ext(input)>` = `tissue+air_map_b0field.nii`. -/
theorem derived_extension_counterexample :
    claimedOutName "tissue+air_map.nii" = "tissue+air_map_b0field.nii" ∧
    resolveOutFile onlyInFileInputs = some "tissue+air_map_b0field.nii.gz" ∧
    resolveOutFile onlyInFileInputs ≠ some (claimedOutName "tissue+air_map.nii") := by
  decide

/-- C3: the doctest scenario (in_file `tissue+air_map.nii`, z_b0 = 3.0, all
else unset) yields exactly the command line
`b0calc -i tissue+air_map.nii -o tissue+air_map_b0field.nii.gz --b0=3.00`,
with no other tokens. -/
theorem doctest_cmdline :
    cmdline doctestInputs =
      "b0calc -i tissue+air_map.nii -o tissue+air_map_b0field.nii.gz --b0=3.00" ∧
    buildArgs doctestInputs =
      ["-i tissue+air_map.nii", "-o tissue+air_map_b0field.nii.gz", "--b0=3.00"] := by
  decide

/-- C4: the built argument list is ordered with the `-i` token first, the
`-o` token second, and every remaining rendered flag after those two in the
fixed order of spec section 4.3 (captured by the strictly increasing
`flagRank` along the list). -/
theorem args_positional_order (p : B0CalcInputSpec) :
    (buildArgs p).Pairwise rankLt ∧
    ∀ f, p.in_file = some f → ∃ o rest, resolveOutFile p = some o ∧
      buildArgs p = ("-i " ++ f) :: ("-o " ++ o) :: rest := by
  refine ⟨buildArgs_pairwise p, fun f hf => ?_⟩
  obtain ⟨o, ho⟩ : ∃ o, resolveOutFile p = some o := by
    rcases hout : p.out_file with _ | o
    · exact ⟨(split_filename f).1 ++ "_b0field" ++ fslOutputExt,
        by simp [resolveOutFile, hout, hf]⟩
    · exact ⟨o, by simp [resolveOutFile, hout]⟩
  refine ⟨o, optNum "--gx=" (formatFixed 4) p.x_grad ++
    optNum "--gy=" (formatFixed 4) p.y_grad ++
    optNum "--gz=" (formatFixed 4) p.z_grad ++
    optNum "--b0x=" (formatFixed 2) p.x_b0 ++
    optNum "--b0y=" (formatFixed 2) p.y_b0 ++
    optNum "--b0=" (formatFixed 2) p.z_b0 ++
    optNum "-d " formatSci p.delta ++
    optNum "--chi0=" formatSci p.chi_air ++
    optBool "--xyz" p.compute_xyz ++
    optNum "--extendboundary=" (formatFixed 2) p.extendboundary ++
    optBool "--directconv" p.directconv, ho, ?_⟩
  simp [buildArgs, inFileArg, outFileArg, hf, ho]

/-- C4 witness: the ordering statement instantiated at the doctest input. -/
theorem args_positional_order_witness :
    ∃ o rest, resolveOutFile doctestInputs = some o ∧
      buildArgs doctestInputs =
        ("-i " ++ "tissue+air_map.nii") :: ("-o " ++ o) :: rest :=
  (args_positional_order doctestInputs).2 "tissue+air_map.nii" rfl

/-- C5: each boolean field contributes exactly its one bare flag token when
assigned true, and no token otherwise. -/
theorem bool_flag_tokens (p : B0CalcInputSpec) :
    ((buildArgs p).filter (hasFlag "--xyz") =
      if p.compute_xyz = some true then ["--xyz"] else []) ∧
    ((buildArgs p).filter (hasFlag "--directconv") =
      if p.directconv = some true then ["--directconv"] else []) := by
  constructor
  · rw [filter_xyz p]
    rcases hx : p.compute_xyz with _ | b
    · simp [optBool, hx]
    · cases b <;> simp [optBool, hx]
  · rw [filter_dc p]
    rcases hx : p.directconv with _ | b
    · simp [optBool, hx]
    · cases b <;> simp [optBool, hx]

/-- C6: an unset `in_file` fails with `MissingRequiredParameter` and no
external invocation is attempted. -/
theorem missing_in_file_rejected (fs fsAfter : List String) (exitOk : Bool)
    (p : B0CalcInputSpec) (h : p.in_file = none) :
    runB0Calc fs exitOk fsAfter p =
      ([], Except.error RunError.missingRequiredParameter) := by
  simp [runB0Calc, validate, h]

/-- C6 witness: the fully unset input is rejected with no invocation. -/
theorem missing_in_file_rejected_witness :
    runB0Calc [] true [] emptyInputs =
      ([], Except.error RunError.missingRequiredParameter) :=
  missing_in_file_rejected [] [] true emptyInputs rfl

/-- C7: an `in_file` that does not exist on the filesystem fails with
`PathNotFound` and no external invocation is attempted. -/
theorem nonexistent_in_file_rejected (fs fsAfter : List String)
    (exitOk : Bool) (p : B0CalcInputSpec) (f : String)
    (h : p.in_file = some f) (hne : fs.contains f = false) :
    runB0Calc fs exitOk fsAfter p = ([], Except.error RunError.pathNotFound) := by
  have hni : ¬ f ∈ fs := by simpa using hne
  simp [runB0Calc, validate, h, hni]

/-- C7 witness: with a filesystem not containing the input, the run is
rejected with `PathNotFound` and no invocation. -/
theorem nonexistent_in_file_rejected_witness :
    runB0Calc ["seg.nii"] true [] onlyInFileInputs =
      ([], Except.error RunError.pathNotFound) :=
  nonexistent_in_file_rejected ["seg.nii"] [] true onlyInFileInputs
    "tissue+air_map.nii" rfl (by decide)

/-- C8: an explicitly supplied `out_file` is resolved verbatim, and any two
inputs agreeing on that `out_file` resolve identically regardless of every
other field. -/
theorem explicit_out_file_verbatim (p : B0CalcInputSpec) (o : String)
    (h : p.out_file = some o) :
    resolveOutFile p = some o ∧
    ∀ q : B0CalcInputSpec, q.out_file = some o →
      resolveOutFile q = resolveOutFile p := by
  constructor
  · simp [resolveOutFile, h]
  · intro q hq
    simp [resolveOutFile, h, hq]

/-- C8 witness: two inputs differing in everything but the explicit
`out_file` resolve to the same verbatim path. -/
theorem explicit_out_file_verbatim_witness :
    resolveOutFile explicitOutInputs = some "custom_out.nii.gz" ∧
    resolveOutFile explicitOutInputsB = resolveOutFile explicitOutInputs := by
  have h := explicit_out_file_verbatim explicitOutInputs "custom_out.nii.gz" rfl
  exact ⟨h.1, h.2 explicitOutInputsB rfl⟩

/-- C9: on a successful exit the driver returns the pre-resolved output
path, and the result is identical for any post-execution filesystem — no
existence re-validation of the output path is performed. -/
theorem success_returns_resolved_path (fs fsA fsB : List String)
    (p : B0CalcInputSpec) (o : String) (h : validate fs p = none)
    (ho : resolveOutFile p = some o) :
    (runB0Calc fs true fsA p).2 = Except.ok ⟨o⟩ ∧
    runB0Calc fs true fsA p = runB0Calc fs true fsB p := by
  constructor
  · simp [runB0Calc, h, ho]
  · rfl

/-- C9 witness: a successful run returns the resolved path even when the
post-execution filesystem does not contain it. -/
theorem success_returns_resolved_path_witness :
    (runB0Calc ["tissue+air_map.nii"] true [] onlyInFileInputs).2 =
      Except.ok ⟨"tissue+air_map_b0field.nii.gz"⟩ ∧
    runB0Calc ["tissue+air_map.nii"] true [] onlyInFileInputs =
      runB0Calc ["tissue+air_map.nii"] true ["tissue+air_map_b0field.nii.gz"]
        onlyInFileInputs :=
  success_returns_resolved_path ["tissue+air_map.nii"] []
    ["tissue+air_map_b0field.nii.gz"] onlyInFileInputs
    "tissue+air_map_b0field.nii.gz" (by decide) (by decide)

/-- C10: explicitly assigning a numeric field a value equal to its declared
default still renders its token: appearance depends on assignment, not on
differing from the default. -/
theorem default_assignment_renders (p : B0CalcInputSpec) :
    (p.x_grad = some xGradDefault → "--gx=0.0000" ∈ buildArgs p) ∧
    (p.y_grad = some yGradDefault → "--gy=0.0000" ∈ buildArgs p) ∧
    (p.z_grad = some zGradDefault → "--gz=0.0000" ∈ buildArgs p) ∧
    (p.x_b0 = some xB0Default → "--b0x=0.00" ∈ buildArgs p) ∧
    (p.y_b0 = some yB0Default → "--b0y=0.00" ∈ buildArgs p) ∧
    (p.z_b0 = some zB0Default → "--b0=1.00" ∈ buildArgs p) ∧
    (p.delta = some deltaDefault → "-d -9.450000e-06" ∈ buildArgs p) ∧
    (p.chi_air = some chiAirDefault → "--chi0=4.000000e-07" ∈ buildArgs p) ∧
    (p.extendboundary = some extendboundaryDefault →
      "--extendboundary=1.00" ∈ buildArgs p) := by
  refine ⟨?_, ?_, ?_, ?_, ?_, ?_, ?_, ?_, ?_⟩ <;> intro h
  · exact mem_of_filter_eq_singleton ((filter_gx p).trans (by rw [h]; decide))
  · exact mem_of_filter_eq_singleton ((filter_gy p).trans (by rw [h]; decide))
  · exact mem_of_filter_eq_singleton ((filter_gz p).trans (by rw [h]; decide))
  · exact mem_of_filter_eq_singleton ((filter_b0x p).trans (by rw [h]; decide))
  · exact mem_of_filter_eq_singleton ((filter_b0y p).trans (by rw [h]; decide))
  · exact mem_of_filter_eq_singleton ((filter_b0z p).trans (by rw [h]; decide))
  · exact mem_of_filter_eq_singleton ((filter_delta p).trans (by rw [h]; decide))
  · exact mem_of_filter_eq_singleton ((filter_chi0 p).trans (by rw [h]; decide))
  · exact mem_of_filter_eq_singleton ((filter_eb p).trans (by rw [h]; decide))

/-- C10 witness: with every numeric field assigned its declared default,
every numeric token is rendered. -/
theorem default_assignment_renders_witness :
    "--gx=0.0000" ∈ buildArgs allDefaultsInputs ∧
    "--gy=0.0000" ∈ buildArgs allDefaultsInputs ∧
    "--gz=0.0000" ∈ buildArgs allDefaultsInputs ∧
    "--b0x=0.00" ∈ buildArgs allDefaultsInputs ∧
    "--b0y=0.00" ∈ buildArgs allDefaultsInputs ∧
    "--b0=1.00" ∈ buildArgs allDefaultsInputs ∧
    "-d -9.450000e-06" ∈ buildArgs allDefaultsInputs ∧
    "--chi0=4.000000e-07" ∈ buildArgs allDefaultsInputs ∧
    "--extendboundary=1.00" ∈ buildArgs allDefaultsInputs := by
  have h := default_assignment_renders allDefaultsInputs
  exact ⟨h.1 rfl, h.2.1 rfl, h.2.2.1 rfl, h.2.2.2.1 rfl, h.2.2.2.2.1 rfl,
    h.2.2.2.2.2.1 rfl, h.2.2.2.2.2.2.1 rfl, h.2.2.2.2.2.2.2.1 rfl,
    h.2.2.2.2.2.2.2.2 rfl⟩
